import Mathlib

/-!
# RecursiveDine backend — order lifecycle and payment workflow, shallow embedding

This file embeds the order/payment core of the RecursiveDine Go backend
(`internal/services/order_service.go`, `internal/services/payment_service.go`,
`internal/services/kitchen_service.go` and the repository layer in
`internal/repositories/`) as executable Lean definitions, and proves the
specified properties about them.

Conventions of the embedding:
* Monetary amounts (`float64` in Go, specified as exact decimals) are modelled
  as rationals `ℚ`, matching the specification's requirement that amounts be
  exact decimal values.
* The GORM-backed repositories are modelled as pure functions over an explicit
  database state `Db` (lists of rows).  A SQL `WHERE` clause becomes a
  `List.filter` / `List.find?`; `First` is `List.find?`; an `UPDATE` is a
  `List.map` replacing the matching rows.  Fallible operations return
  `Except String α` carrying the Go error strings.
* Nondeterministic inputs (generated transaction ids, the current time) are
  passed in as explicit parameters.
* Database writes that the Go code checks for errors are modelled with explicit
  failure flags where a claim is about the partial-failure behaviour
  (`processCashPayment`); elsewhere writes are modelled as always succeeding.
-/

deriving instance DecidableEq for Except

namespace RecursiveDine

/-- Embeds `repositories.OrderStatus` (`models.go`): the six order statuses. -/
inductive OrderStatus where
  | pending
  | confirmed
  | preparing
  | ready
  | served
  | cancelled
deriving DecidableEq

/-- The string value of an `OrderStatus` constant (`models.go`). -/
def OrderStatus.text : OrderStatus → String
  | .pending => "pending"
  | .confirmed => "confirmed"
  | .preparing => "preparing"
  | .ready => "ready"
  | .served => "served"
  | .cancelled => "cancelled"

/-- Embeds `repositories.OrderType` (`models.go`). -/
inductive OrderType where
  | dineIn
  | takeaway
deriving DecidableEq

/-- Embeds `repositories.PaymentStatus` (`models.go`). -/
inductive PaymentStatus where
  | pending
  | completed
  | failed
  | refunded
  | cancelled
deriving DecidableEq

/-- Embeds `repositories.PaymentMethod` (`models.go`). -/
inductive PaymentMethod where
  | qris
  | cash
deriving DecidableEq

/-- Embeds `repositories.MenuItem` (`models.go`), restricted to the fields the order
and payment workflow reads. -/
structure MenuItem where
  id : Nat
  name : String
  price : ℚ
  isAvailable : Bool
deriving DecidableEq

/-- Embeds `repositories.OrderItem` (`models.go`): a line item owned by an order,
with the frozen unit price copied from the catalog at creation time. -/
structure OrderItem where
  orderID : Nat
  menuItemID : Nat
  quantity : Nat
  unitPrice : ℚ
  totalPrice : ℚ
  specialRequest : String
deriving DecidableEq

/-- Embeds `repositories.Order` (`models.go`), restricted to the fields the order and
payment workflow reads.  `tableID = 0` encodes the Go zero value (absent table,
takeaway). -/
structure Order where
  id : Nat
  userID : Nat
  tableID : Nat
  orderType : OrderType
  status : OrderStatus
  subtotalAmount : ℚ
  vatAmount : ℚ
  totalAmount : ℚ
  customerPhone : String
  specialNotes : String
  estimatedCompletionTime : Option Nat
  orderItems : List OrderItem
deriving DecidableEq

/-- Embeds `repositories.Payment` (`models.go`), restricted to the fields the payment
workflow reads.  `createdAt` is an abstract timestamp (the `created_at` column
used by the reconciliation window query). -/
structure Payment where
  id : Nat
  orderID : Nat
  method : PaymentMethod
  status : PaymentStatus
  amount : ℚ
  transactionID : String
  externalID : String
  createdAt : Nat
deriving DecidableEq

/-- The database state seen by the order/payment core: the menu-item, order and
payment tables.  `nextPaymentID` models the primary-key sequence for the
payments table. -/
structure Db where
  menuItems : List MenuItem
  orders : List Order
  payments : List Payment
  nextPaymentID : Nat
deriving DecidableEq

/-! ## Repository layer -/

/-- Embeds `MenuRepository.GetMenuItemsByIDs`: `WHERE id IN ? AND is_available = true`.
Returns each matching catalog row once; unavailable items are silently
omitted. -/
def getMenuItemsByIDs (menuItems : List MenuItem) (ids : List Nat) : List MenuItem :=
  menuItems.filter (fun m => ids.contains m.id && m.isAvailable)

/-- Embeds `MenuRepository.GetMenuItemByID`: `First(&item, id)`; no availability
filter. -/
def getMenuItemByID (menuItems : List MenuItem) (id : Nat) : Except String MenuItem :=
  match menuItems.find? (fun m => m.id == id) with
  | some m => .ok m
  | none => .error ("menu item not found")

/-- Embeds `OrderRepository.GetByID`: `First(&order, id)` with its relations
preloaded. -/
def orderGetByID (db : Db) (id : Nat) : Except String Order :=
  match db.orders.find? (fun o => o.id == id) with
  | some o => .ok o
  | none => .error ("order not found")

/-- Embeds `OrderRepository.UpdateStatus`: a raw
`UPDATE orders SET status = ? WHERE id = ?`; it performs no transition
validation and reports no error when no row matches. -/
def orderUpdateStatus (db : Db) (orderID : Nat) (status : OrderStatus) : Db :=
  { db with orders := db.orders.map (fun o => if o.id == orderID then { o with status := status } else o) }

/-- Embeds `OrderRepository.GetKitchenOrders`:
`WHERE status IN ('confirmed','preparing')`. -/
def getKitchenOrders (db : Db) : List Order :=
  db.orders.filter (fun o => o.status == .confirmed || o.status == .preparing)

/-- Embeds `PaymentRepository.GetByID`: `First(&payment, id)`. -/
def paymentGetByID (db : Db) (id : Nat) : Except String Payment :=
  match db.payments.find? (fun p => p.id == id) with
  | some p => .ok p
  | none => .error ("payment not found")

/-- Embeds `PaymentRepository.GetByOrderID`: `WHERE order_id = ? ... First`. -/
def paymentGetByOrderID (db : Db) (orderID : Nat) : Except String Payment :=
  match db.payments.find? (fun p => p.orderID == orderID) with
  | some p => .ok p
  | none => .error ("payment not found")

/-- Embeds `PaymentRepository.GetByTransactionID`: `WHERE transaction_id = ? ... First`. -/
def paymentGetByTransactionID (db : Db) (transactionID : String) : Except String Payment :=
  match db.payments.find? (fun p => p.transactionID == transactionID) with
  | some p => .ok p
  | none => .error ("payment not found")

/-- Embeds `PaymentRepository.Create`: inserts the record, the primary key being
assigned from the sequence.  Returns the new state and the stored row. -/
def paymentCreate (db : Db) (p : Payment) : Db × Payment :=
  let stored := { p with id := db.nextPaymentID }
  ({ db with payments := db.payments ++ [stored], nextPaymentID := db.nextPaymentID + 1 }, stored)

/-- Embeds `PaymentRepository.Update` (`db.Save`): replaces the row with the record's
primary key. -/
def paymentUpdate (db : Db) (p : Payment) : Db :=
  { db with payments := db.payments.map (fun q => if q.id == p.id then p else q) }

/-- Embeds `PaymentRepository.GetCashPaymentsByPeriod`:
`WHERE payment_method = 'cash' AND created_at BETWEEN ? AND ?`.  Note that the
`cashierID` argument is **not used** in the query. -/
def getCashPaymentsByPeriod (db : Db) (_cashierID : Nat) (shiftStart shiftEnd : Nat) : List Payment :=
  db.payments.filter (fun p => p.method == .cash && (shiftStart ≤ p.createdAt && p.createdAt ≤ shiftEnd))

/-! ## Order service: status transitions -/

/-- Embeds `OrderService.validateStatusTransition`: the fixed transition table.  The
map in the Go code has an entry for every status (`served` and `cancelled` map
to the empty successor list), so the `exists` lookup never fails for a value of
the `OrderStatus` enum. -/
def validTransitions : OrderStatus → List OrderStatus
  | .pending => [.confirmed, .cancelled]
  | .confirmed => [.preparing, .cancelled]
  | .preparing => [.ready]
  | .ready => [.served]
  | .served => []
  | .cancelled => []

/-- The error message of `validateStatusTransition`, naming both statuses
(`"invalid status transition from %s to %s"`). -/
def transitionErrorMsg (currentStatus newStatus : OrderStatus) : String :=
  "invalid status transition from " ++ currentStatus.text ++ " to " ++ newStatus.text

/-- Embeds `OrderService.validateStatusTransition`. -/
def validateStatusTransition (currentStatus newStatus : OrderStatus) : Except String Unit :=
  if (validTransitions currentStatus).contains newStatus then
    .ok ()
  else
    .error (transitionErrorMsg currentStatus newStatus)

/-- Embeds `OrderService.UpdateOrderStatus`: load the order, validate the transition,
then persist the new status via the raw repository update. -/
def updateOrderStatus (db : Db) (orderID : Nat) (status : OrderStatus) : Except String Db :=
  match orderGetByID db orderID with
  | .error _ => .error ("order not found")
  | .ok order =>
    match validateStatusTransition order.status status with
    | .error e => .error e
    | .ok _ => .ok (orderUpdateStatus db orderID status)

/-! ## Order service: creation -/

/-- Embeds `services.CreateOrderItemRequest`. -/
structure CreateOrderItemRequest where
  menuItemID : Nat
  quantity : Nat
  specialRequest : String
deriving DecidableEq

/-- Embeds `services.CreateOrderRequest`. -/
structure CreateOrderRequest where
  tableID : Option Nat
  orderType : OrderType
  customerPhone : String
  specialNotes : String
  estimatedCompletionTime : Option Nat
  items : List CreateOrderItemRequest
deriving DecidableEq

/-- Embeds `OrderService.validateOrderRequest`: dine-in needs a table, takeaway needs
a phone and defaults the estimated completion time to `now + 30 minutes`.  The
`OrderType` enum is exhaustive, so the Go `default` branch is unreachable
here. -/
def validateOrderRequest (now : Nat) (req : CreateOrderRequest) : Except String CreateOrderRequest :=
  match req.orderType with
  | .dineIn =>
    if req.tableID.isNone then .error ("table_id is required for dine-in orders")
    else .ok req
  | .takeaway =>
    if req.customerPhone == "" then .error ("customer_phone is required for takeaway orders")
    else if req.estimatedCompletionTime.isNone then
      .ok { req with estimatedCompletionTime := some (now + 30) }
    else .ok req

/-- Lookup in the `menuItemMap` Go map built from the fetched rows; for
duplicate ids the last insertion wins. -/
def menuItemMapFind (menuItems : List MenuItem) (id : Nat) : Option MenuItem :=
  menuItems.reverse.find? (fun m => m.id == id)

/-- The item loop of `OrderService.CreateOrder`: look each requested item up in
the map, reject unavailable items, freeze the unit price, and accumulate the
subtotal. -/
def buildOrderItems (menuItems : List MenuItem) : List CreateOrderItemRequest → Except String (List OrderItem × ℚ)
  | [] => .ok ([], 0)
  | item :: rest =>
    match menuItemMapFind menuItems item.menuItemID with
    | none => .error ("menu item with ID " ++ toString item.menuItemID ++ " not found")
    | some menuItem =>
      if !menuItem.isAvailable then
        .error ("menu item " ++ menuItem.name ++ " is not available")
      else
        match buildOrderItems menuItems rest with
        | .error e => .error e
        | .ok (items, subtotal) =>
          let totalPrice := menuItem.price * (item.quantity : ℚ)
          .ok ({ orderID := 0, menuItemID := item.menuItemID, quantity := item.quantity,
                 unitPrice := menuItem.price, totalPrice := totalPrice,
                 specialRequest := item.specialRequest } :: items,
               totalPrice + subtotal)

/-- Embeds `const vatRate = 0.10` in `OrderService.CreateOrder`. -/
def vatRate : ℚ := 1 / 10

/-- Embeds `OrderService.CreateOrder`: validate the request, fetch the requested menu
items in one batch, require the row count to match the request's entry count,
build the frozen line items, compute subtotal/VAT/total, and persist the order
with its items as one unit (the persisted record is the returned value; the
database assigns the primary key, modelled as `0`). -/
def createOrder (db : Db) (now userID : Nat) (req : CreateOrderRequest) : Except String Order :=
  match validateOrderRequest now req with
  | .error e => .error e
  | .ok req =>
    let menuItems := getMenuItemsByIDs db.menuItems (req.items.map (fun i => i.menuItemID))
    if menuItems.length != req.items.length then
      .error ("some menu items are not available")
    else
      match buildOrderItems menuItems req.items with
      | .error e => .error e
      | .ok (orderItems, subtotal) =>
        let vatAmount := subtotal * vatRate
        let totalAmount := subtotal + vatAmount
        .ok { id := 0, userID := userID,
              tableID := req.tableID.getD 0,
              orderType := req.orderType, status := .pending,
              subtotalAmount := subtotal, vatAmount := vatAmount, totalAmount := totalAmount,
              customerPhone := req.customerPhone, specialNotes := req.specialNotes,
              estimatedCompletionTime := req.estimatedCompletionTime,
              orderItems := orderItems }

/-! ## Order service: updating line items -/

/-- The item loop of `OrderService.UpdateOrderItems`: re-resolve each item's
price from the current catalog (`GetMenuItemByID`, which does not filter on
availability), overwrite the item's unit and total price, and accumulate the
sum of the new line totals. -/
def resolveOrderItems (menuItems : List MenuItem) (orderID : Nat) : List OrderItem → Except String (List OrderItem × ℚ)
  | [] => .ok ([], 0)
  | item :: rest =>
    match getMenuItemByID menuItems item.menuItemID with
    | .error _ => .error ("menu item not found: " ++ toString item.menuItemID)
    | .ok menuItem =>
      match resolveOrderItems menuItems orderID rest with
      | .error e => .error e
      | .ok (items, total) =>
        .ok ({ item with
                unitPrice := menuItem.price,
                totalPrice := menuItem.price * (item.quantity : ℚ),
                orderID := orderID } :: items,
             menuItem.price * (item.quantity : ℚ) + total)

/-- Embeds `OrderService.UpdateOrderItems`: allowed only for pending orders; replaces
the order's line items with the re-priced ones and saves the order with
`TotalAmount` set to the raw sum of the new line totals.  The Go code does not
touch `SubtotalAmount` or `VATAmount` and applies no VAT to the new total. -/
def updateOrderItems (db : Db) (orderID : Nat) (items : List OrderItem) : Except String Db :=
  match orderGetByID db orderID with
  | .error e => .error e
  | .ok order =>
    if order.status != .pending then .error ("can only update items for pending orders")
    else
      match resolveOrderItems db.menuItems orderID items with
      | .error e => .error e
      | .ok (newItems, total) =>
        .ok { db with orders := db.orders.map (fun o =>
          if o.id == orderID then { o with orderItems := newItems, totalAmount := total } else o) }

/-! ## Payment service -/

/-- Embeds `services.PaymentVerificationRequest`. -/
structure PaymentVerificationRequest where
  transactionID : String
  externalID : String
  amount : ℚ
  status : String
deriving DecidableEq

/-- Embeds `PaymentService.VerifyPayment`: look the payment up by transaction id,
check the reported amount, map the reported status, persist the payment, and —
when the new status is `completed` — advance the linked order to `confirmed`
via the raw repository `UpdateStatus` (no transition validation). -/
def verifyPayment (db : Db) (req : PaymentVerificationRequest) : Except String Db :=
  match paymentGetByTransactionID db req.transactionID with
  | .error _ => .error ("payment not found")
  | .ok payment =>
    if payment.amount != req.amount then .error ("amount mismatch")
    else
      match (if req.status == "success" || req.status == "completed" then some PaymentStatus.completed
             else if req.status == "failed" then some PaymentStatus.failed
             else none) with
      | none => .error ("invalid payment status")
      | some newStatus =>
        let db1 := paymentUpdate db { payment with status := newStatus, externalID := req.externalID }
        if newStatus == .completed then
          .ok (orderUpdateStatus db1 payment.orderID .confirmed)
        else
          .ok db1

/-- Embeds `PaymentService.ProcessCashPayment`.  The two database writes (payment
insert, order-status update) are issued sequentially without a transaction;
`createFails` and `updateFails` model whether each write fails, and the result
pairs the committed state with the returned error, so partially committed
outcomes are observable.  `changeAmount` is accepted but never used by the Go
code; the current time `now` fills the payment's `created_at` column. -/
def processCashPayment (createFails updateFails : Bool) (transactionID : String) (now : Nat)
    (db : Db) (orderID : Nat) (amountPaid _changeAmount : ℚ) : Db × Except String Unit :=
  match orderGetByID db orderID with
  | .error _ => (db, .error ("order not found"))
  | .ok order =>
    if order.status != .pending then (db, .error ("order is not pending payment"))
    else
      let alreadyPaid : Bool :=
        match paymentGetByOrderID db orderID with
        | .ok existingPayment => existingPayment.status == .completed
        | .error _ => false
      if alreadyPaid then (db, .error ("order already paid"))
      else if amountPaid < order.totalAmount then (db, .error ("insufficient payment amount"))
      else if createFails then (db, .error ("failed to create payment record"))
      else
        let payment : Payment :=
          { id := 0, orderID := orderID, method := .cash, status := .completed,
            amount := order.totalAmount, transactionID := transactionID,
            externalID := "", createdAt := now }
        let result := paymentCreate db payment
        if updateFails then (result.1, .error ("failed to update order status"))
        else (orderUpdateStatus result.1 orderID .confirmed, .ok ())

/-- Embeds `PaymentService.ProcessRefund`: only completed payments can be refunded,
never above the original amount; creates a negative-amount refund record with
transaction id `"REFUND-" ++` the original id, and marks the original payment
`refunded` exactly on a full refund.  Returns the new state and the refund
record. -/
def processRefund (db : Db) (now : Nat) (paymentID : Nat) (amount : ℚ) (_reason : String) :
    Except String (Db × Payment) :=
  match paymentGetByID db paymentID with
  | .error _ => .error ("payment not found")
  | .ok payment =>
    if payment.status != .completed then .error ("can only refund completed payments")
    else if amount > payment.amount then .error ("refund amount cannot exceed original payment amount")
    else
      let refund : Payment :=
        { id := 0, orderID := payment.orderID, method := payment.method,
          status := .completed, amount := -amount,
          transactionID := "REFUND-" ++ payment.transactionID,
          externalID := "", createdAt := now }
      let result := paymentCreate db refund
      if amount == payment.amount then
        .ok (paymentUpdate result.1 { payment with status := .refunded }, result.2)
      else
        .ok (result.1, result.2)

/-- The reconciliation record assembled by
`PaymentService.ReconcileCashPayments`.  The repository's
`CreateReconciliation` is a stub that persists nothing. -/
structure ReconciliationRecord where
  cashierID : Nat
  shiftStart : Nat
  shiftEnd : Nat
  expectedAmount : ℚ
  calculatedAmount : ℚ
  actualAmount : ℚ
  difference : ℚ
  paymentCount : Nat
  notes : String
deriving DecidableEq

/-- Embeds `PaymentService.ReconcileCashPayments`: fetch the cash payments in the
shift window, sum the positive amounts (refund records are negative and are
skipped by the `> 0` guard), and assemble the reconciliation record.  The
state is returned unchanged: `CreateReconciliation` is a no-op and neither
payments nor orders are written. -/
def reconcileCashPayments (db : Db) (cashierID : Nat) (actualAmount expectedAmount : ℚ)
    (shiftStart shiftEnd : Nat) (notes : String) : Db × ReconciliationRecord :=
  let cashPayments := getCashPaymentsByPeriod db cashierID shiftStart shiftEnd
  let calculatedTotal := cashPayments.foldl (fun acc p => if 0 < p.amount then acc + p.amount else acc) 0
  let difference := actualAmount - calculatedTotal
  (db, { cashierID := cashierID, shiftStart := shiftStart, shiftEnd := shiftEnd,
         expectedAmount := expectedAmount, calculatedAmount := calculatedTotal,
         actualAmount := actualAmount, difference := difference,
         paymentCount := cashPayments.length, notes := notes })

/-! ## Kitchen service -/

/-- Embeds `KitchenService.AddClient`: the snapshot of current kitchen orders pushed
to a newly connected subscriber (the `initial_orders` payload), fetched via
`GetKitchenOrders`. -/
def addClientSnapshot (db : Db) : List Order :=
  getKitchenOrders db

/-! ## Specification-side definitions -/

/-- Modelled from the spec: the fixed order-status transition table
`pending -> confirmed | cancelled`, `confirmed -> preparing | cancelled`,
`preparing -> ready`, `ready -> served`, with `served` and `cancelled`
terminal.  Used to compare the code's `validateStatusTransition` against the
specified edge set. -/
def specTransitionEdges : List (OrderStatus × OrderStatus) :=
  [(.pending, .confirmed), (.pending, .cancelled),
   (.confirmed, .preparing), (.confirmed, .cancelled),
   (.preparing, .ready), (.ready, .served)]

/-- Whether a payment belongs to the given cashier, via its linked order's
owning user (cashier-entered orders store the cashier's user id as `UserID`). -/
def paymentBelongsToCashier (db : Db) (cashierID : Nat) (p : Payment) : Bool :=
  match db.orders.find? (fun o => o.id == p.orderID) with
  | some o => o.userID == cashierID
  | none => false

/-- Modelled from the spec: the reconciliation sum as the claim states it —
the positive-amount **cash** payments **belonging to that cashier** with
timestamps within `[shiftStart, shiftEnd]`.  Used to compare the code's
`reconcileCashPayments` against the claimed per-cashier sum. -/
def specCashierCashSum (db : Db) (cashierID : Nat) (shiftStart shiftEnd : Nat) : ℚ :=
  ((db.payments.filter (fun p =>
      p.method == .cash && (shiftStart ≤ p.createdAt && p.createdAt ≤ shiftEnd) &&
      decide (0 < p.amount) && paymentBelongsToCashier db cashierID p)).map Payment.amount).sum

/-! ## Helper lemmas -/

theorem validateStatusTransition_ok_iff (a b : OrderStatus) :
    validateStatusTransition a b = .ok () ↔ (a, b) ∈ specTransitionEdges := by
  cases a <;> cases b <;> decide

theorem validateStatusTransition_not_edge (a b : OrderStatus)
    (h : (a, b) ∉ specTransitionEdges) :
    validateStatusTransition a b = .error (transitionErrorMsg a b) := by
  revert h
  cases a <;> cases b <;> decide

/-! ## Concrete fixtures for witnesses and counterexamples -/

/-- A baseline order used to build the concrete test databases. -/
def baseOrder : Order :=
  { id := 1, userID := 1, tableID := 1, orderType := .dineIn, status := .pending,
    subtotalAmount := 100, vatAmount := 10, totalAmount := 110,
    customerPhone := "", specialNotes := "", estimatedCompletionTime := none,
    orderItems := [] }

/-- A baseline payment used to build the concrete test databases. -/
def basePayment : Payment :=
  { id := 1, orderID := 1, method := .qris, status := .pending, amount := 110,
    transactionID := "TX1", externalID := "", createdAt := 5 }

/-- Fixture for the status-transition witness: one pending order. -/
def dbC2 : Db :=
  { menuItems := [], orders := [baseOrder], payments := [], nextPaymentID := 1 }

/-! ## C2: order status transitions -/

/-- C2.  For every order and every requested status, `UpdateOrderStatus`
succeeds exactly when `(currentStatus, requestedStatus)` is an edge of the
fixed table `pending -> confirmed | cancelled`,
`confirmed -> preparing | cancelled`, `preparing -> ready`, `ready -> served`;
every other pair — self-transitions, skip-aheads, and transitions out of the
terminal states `served` and `cancelled` — fails with the invalid-transition
error naming both statuses, and returns no updated state, leaving the order's
status unchanged. -/
theorem updateOrderStatus_edge_iff (db : Db) (orderID : Nat) (newStatus : OrderStatus)
    (order : Order) (h : orderGetByID db orderID = .ok order) :
    ((∃ db', updateOrderStatus db orderID newStatus = .ok db') ↔
        (order.status, newStatus) ∈ specTransitionEdges) ∧
    ((order.status, newStatus) ∉ specTransitionEdges →
        updateOrderStatus db orderID newStatus =
          .error (transitionErrorMsg order.status newStatus)) := by
  unfold updateOrderStatus
  rw [h]
  dsimp only
  constructor
  · constructor
    · rintro ⟨db', hdb⟩
      by_contra hne
      rw [validateStatusTransition_not_edge _ _ hne] at hdb
      simp at hdb
    · intro he
      rw [(validateStatusTransition_ok_iff _ _).mpr he]
      exact ⟨_, rfl⟩
  · intro hne
    rw [validateStatusTransition_not_edge _ _ hne]

/-- Witness for C2: on the concrete one-order database, the skip-ahead
`pending -> preparing` is not an edge and is rejected with the error naming
both statuses. -/
theorem updateOrderStatus_edge_iff_witness :
    ((∃ db', updateOrderStatus dbC2 1 .preparing = .ok db') ↔
        (baseOrder.status, OrderStatus.preparing) ∈ specTransitionEdges) ∧
    ((baseOrder.status, OrderStatus.preparing) ∉ specTransitionEdges →
        updateOrderStatus dbC2 1 .preparing =
          .error (transitionErrorMsg baseOrder.status .preparing)) :=
  updateOrderStatus_edge_iff dbC2 1 .preparing baseOrder rfl

/-! ## C9: kitchen snapshot -/

/-- C9.  The snapshot pushed to a newly connected kitchen subscriber contains
exactly the orders whose status is `confirmed` or `preparing`: every order in
one of those two statuses is included, and no order in any other status is. -/
theorem addClientSnapshot_mem_iff (db : Db) (o : Order) :
    o ∈ addClientSnapshot db ↔
      o ∈ db.orders ∧ (o.status = .confirmed ∨ o.status = .preparing) := by
  simp [addClientSnapshot, getKitchenOrders, List.mem_filter]

/-! ## C3: payment verification and order status -/

/-- Fixture: a cancelled order whose pending QRIS payment is then verified. -/
def dbC3 : Db :=
  { menuItems := [], orders := [{ baseOrder with status := .cancelled }],
    payments := [basePayment], nextPaymentID := 2 }

/-- Fixture: an order a staff member has advanced to `preparing`, whose payment
was already verified once (status `completed`), being verified a second time
with the same transaction id. -/
def dbD3 : Db :=
  { menuItems := [], orders := [{ baseOrder with status := .preparing }],
    payments := [{ basePayment with status := .completed, externalID := "EXT1" }],
    nextPaymentID := 2 }

/-- The verification callback used in the C3 scenarios. -/
def reqC3 : PaymentVerificationRequest :=
  { transactionID := "TX1", externalID := "EXT1", amount := 110, status := "success" }

/-- Counterexample to C3.  Verifying a successful payment on an order that is
already `cancelled` succeeds and sets the order to `confirmed` (no transition
validation is applied), and verifying the same transaction id a second time
after the order has advanced to `preparing` succeeds and regresses it to
`confirmed`. -/
theorem verifyPayment_no_validation_counterexample :
    dbC3.orders.map Order.status = [OrderStatus.cancelled] ∧
    (verifyPayment dbC3 reqC3).toOption.map (fun db' => db'.orders.map Order.status) =
      some [OrderStatus.confirmed] ∧
    dbD3.orders.map Order.status = [OrderStatus.preparing] ∧
    (verifyPayment dbD3 reqC3).toOption.map (fun db' => db'.orders.map Order.status) =
      some [OrderStatus.confirmed] :=
  ⟨rfl, rfl, rfl, rfl⟩

/-- C3 as amended.  When `VerifyPayment` maps the reported status to
`completed`, it advances the linked order to `confirmed` through the raw
repository status write with **no** transition validation: it succeeds
whatever the order's current status (including `cancelled`, which it
resurrects), and verifying the same transaction id again repeats the same raw
write (regressing an order that had advanced). -/
theorem verifyPayment_raw_confirm (db : Db) (req : PaymentVerificationRequest)
    (payment : Payment)
    (h : paymentGetByTransactionID db req.transactionID = .ok payment)
    (hamt : payment.amount = req.amount)
    (hst : req.status = "success" ∨ req.status = "completed") :
    verifyPayment db req =
      .ok (orderUpdateStatus
            (paymentUpdate db { payment with status := .completed, externalID := req.externalID })
            payment.orderID .confirmed) := by
  unfold verifyPayment
  rw [h]
  rcases hst with h1 | h1 <;> simp [hamt, h1]

/-- Witness for C3's amended theorem: the cancelled-order fixture. -/
theorem verifyPayment_raw_confirm_witness :
    verifyPayment dbC3 reqC3 =
      .ok (orderUpdateStatus
            (paymentUpdate dbC3 { basePayment with status := .completed, externalID := "EXT1" })
            basePayment.orderID .confirmed) :=
  verifyPayment_raw_confirm dbC3 reqC3 basePayment rfl rfl (Or.inl rfl)

/-! ## C4: cash payment -/

/-- Fixture: a pending order that already carries a completed payment. -/
def dbC4 : Db :=
  { menuItems := [], orders := [baseOrder],
    payments := [{ basePayment with method := .cash, status := .completed }],
    nextPaymentID := 2 }

/-- Counterexample to C4.  The order is `pending` with total `110` and the
tendered amount `150` is sufficient, yet `ProcessCashPayment` fails (with the
already-paid error) because a completed payment exists for the order — so
"fails when not pending, fails with insufficient-amount exactly when
`amountTendered < total`, and otherwise succeeds" does not hold as stated. -/
theorem processCashPayment_already_paid_counterexample :
    (orderGetByID dbC4 1).toOption.map Order.status = some .pending ∧
    (orderGetByID dbC4 1).toOption.map Order.totalAmount = some 110 ∧
    ((110 : ℚ) ≤ 150) ∧
    processCashPayment false false "TX2" 7 dbC4 1 150 0 =
      (dbC4, .error ("order already paid")) := by
  refine ⟨rfl, rfl, by norm_num, rfl⟩

/-- C4 as amended.  Provided no already-completed payment exists for the
order, `ProcessCashPayment` fails when the order's status is not `pending`,
fails with the insufficient-amount error exactly when
`amountTendered < order.total`, and otherwise (including the boundary case
`amountTendered = order.total`) succeeds, creating a payment with method
`cash`, status `completed` and amount exactly `order.total` (never the
tendered amount), after which the order's status is `confirmed`. -/
theorem processCashPayment_spec (txid : String) (now : Nat) (db : Db) (orderID : Nat)
    (amountPaid changeAmount : ℚ) (order : Order)
    (h : orderGetByID db orderID = .ok order)
    (hnp : ∀ p, paymentGetByOrderID db orderID = .ok p → p.status ≠ .completed) :
    (order.status ≠ .pending →
        processCashPayment false false txid now db orderID amountPaid changeAmount =
          (db, .error ("order is not pending payment"))) ∧
    (order.status = .pending → amountPaid < order.totalAmount →
        processCashPayment false false txid now db orderID amountPaid changeAmount =
          (db, .error ("insufficient payment amount"))) ∧
    (order.status = .pending → order.totalAmount ≤ amountPaid →
        processCashPayment false false txid now db orderID amountPaid changeAmount =
          (orderUpdateStatus
            { db with
                payments := db.payments ++
                  [{ id := db.nextPaymentID, orderID := orderID, method := .cash,
                     status := .completed, amount := order.totalAmount,
                     transactionID := txid, externalID := "", createdAt := now }],
                nextPaymentID := db.nextPaymentID + 1 }
            orderID .confirmed,
           .ok ())) := by
  have halready :
      (match paymentGetByOrderID db orderID with
        | .ok existingPayment => existingPayment.status == .completed
        | .error _ => false) = false := by
    cases hp : paymentGetByOrderID db orderID with
    | ok p => simpa using hnp p hp
    | error e => rfl
  unfold processCashPayment
  rw [h]
  refine ⟨?_, ?_, ?_⟩
  · intro hns
    simp [hns]
  · intro hpend hlt
    simp [hpend, halready, hlt]
  · intro hpend hle
    simp [hpend, halready, not_lt.mpr hle, paymentCreate]

/-- Witness for C4's amended theorem: a pending order with no payment at all;
tendering exactly the total succeeds, creating the completed cash payment for
the total and confirming the order. -/
theorem processCashPayment_spec_witness :
    (baseOrder.status ≠ .pending →
        processCashPayment false false "TX5" 8 dbC2 1 110 0 =
          (dbC2, .error ("order is not pending payment"))) ∧
    (baseOrder.status = .pending → (110 : ℚ) < baseOrder.totalAmount →
        processCashPayment false false "TX5" 8 dbC2 1 110 0 =
          (dbC2, .error ("insufficient payment amount"))) ∧
    (baseOrder.status = .pending → baseOrder.totalAmount ≤ (110 : ℚ) →
        processCashPayment false false "TX5" 8 dbC2 1 110 0 =
          (orderUpdateStatus
            { dbC2 with
                payments := dbC2.payments ++
                  [{ id := dbC2.nextPaymentID, orderID := 1, method := .cash,
                     status := .completed, amount := baseOrder.totalAmount,
                     transactionID := "TX5", externalID := "", createdAt := 8 }],
                nextPaymentID := dbC2.nextPaymentID + 1 }
            1 .confirmed,
           .ok ())) :=
  processCashPayment_spec "TX5" 8 dbC2 1 110 0 baseOrder rfl
    (fun p hp => by simp [paymentGetByOrderID, dbC2] at hp)

/-! ## C5: the cash payment write pair is not atomic -/

/-- The committed payment row in the C5 counterexample. -/
def cashPaymentC5 : Payment :=
  { id := 1, orderID := 1, method := .cash, status := .completed, amount := 110,
    transactionID := "TX9", externalID := "", createdAt := 7 }

/-- Counterexample to C5.  When the payment insert succeeds and the
order-status write fails, the final state contains the completed cash payment
while the order is still `pending` — the pair is not atomic. -/
theorem processCashPayment_partial_commit_counterexample :
    processCashPayment false true "TX9" 7 dbC2 1 110 0 =
      ({ dbC2 with payments := [cashPaymentC5], nextPaymentID := 2 },
       .error ("failed to update order status")) ∧
    ({ dbC2 with payments := [cashPaymentC5], nextPaymentID := 2 } : Db).orders.map
        Order.status = [OrderStatus.pending] ∧
    cashPaymentC5.status = .completed ∧ cashPaymentC5.method = .cash :=
  ⟨rfl, rfl, rfl, rfl⟩

/-- C5 as amended.  The payment insert commits before the status advance and
the two writes are not atomic: if the payment insert fails nothing is
committed, but if the status advance fails the completed cash payment remains
committed while the order's rows — in particular its `pending` status — are
unchanged, and the error is reported to the caller. -/
theorem processCashPayment_not_atomic (txid : String) (now : Nat) (db : Db) (orderID : Nat)
    (amountPaid changeAmount : ℚ) (order : Order) (updateFails : Bool)
    (h : orderGetByID db orderID = .ok order)
    (hpend : order.status = .pending)
    (hnp : ∀ p, paymentGetByOrderID db orderID = .ok p → p.status ≠ .completed)
    (hamt : order.totalAmount ≤ amountPaid) :
    processCashPayment true updateFails txid now db orderID amountPaid changeAmount =
        (db, .error ("failed to create payment record")) ∧
    processCashPayment false true txid now db orderID amountPaid changeAmount =
        ({ db with
            payments := db.payments ++
              [{ id := db.nextPaymentID, orderID := orderID, method := .cash,
                 status := .completed, amount := order.totalAmount,
                 transactionID := txid, externalID := "", createdAt := now }],
            nextPaymentID := db.nextPaymentID + 1 },
         .error ("failed to update order status")) := by
  have halready :
      (match paymentGetByOrderID db orderID with
        | .ok existingPayment => existingPayment.status == .completed
        | .error _ => false) = false := by
    cases hp : paymentGetByOrderID db orderID with
    | ok p => simpa using hnp p hp
    | error e => rfl
  unfold processCashPayment
  rw [h]
  constructor
  · simp [hpend, halready, not_lt.mpr hamt]
  · simp [hpend, halready, not_lt.mpr hamt, paymentCreate]

/-- Witness for C5's amended theorem at the concrete one-order database. -/
theorem processCashPayment_not_atomic_witness :
    processCashPayment true true "TX9" 7 dbC2 1 110 0 =
        (dbC2, .error ("failed to create payment record")) ∧
    processCashPayment false true "TX9" 7 dbC2 1 110 0 =
        ({ dbC2 with
            payments := dbC2.payments ++
              [{ id := dbC2.nextPaymentID, orderID := 1, method := .cash,
                 status := .completed, amount := baseOrder.totalAmount,
                 transactionID := "TX9", externalID := "", createdAt := 7 }],
            nextPaymentID := dbC2.nextPaymentID + 1 },
         .error ("failed to update order status")) :=
  processCashPayment_not_atomic "TX9" 7 dbC2 1 110 0 baseOrder true rfl rfl
    (fun p hp => by simp [paymentGetByOrderID, dbC2] at hp) (by norm_num [baseOrder])

/-! ## C6: refunds -/

/-- Extraction helper: `paymentGetByID` succeeds exactly on the first matching
row. -/
theorem paymentGetByID_ok_iff (db : Db) (pid : Nat) (p : Payment) :
    paymentGetByID db pid = .ok p ↔
      db.payments.find? (fun q => q.id == pid) = some p := by
  unfold paymentGetByID
  cases hf : db.payments.find? (fun q => q.id == pid) <;> simp

/-- After replacing the row found for `pid` (keeping its id), `find?` returns
the replacement. -/
theorem find?_paymentUpdate (l : List Payment) (pid : Nat) (p newp : Payment)
    (hf : l.find? (fun q => q.id == pid) = some p) (hid : newp.id = p.id) :
    (l.map (fun q => if q.id == newp.id then newp else q)).find? (fun q => q.id == pid) =
      some newp := by
  induction l with
  | nil => simp at hf
  | cons a t ih =>
    by_cases ha : a.id = pid
    · rw [List.find?_cons_of_pos _ (by simp [ha])] at hf
      obtain rfl : a = p := by simpa using hf
      rw [List.map_cons, if_pos (by simp [hid]), List.find?_cons_of_pos _ (by simp [hid, ha])]
    · rw [List.find?_cons_of_neg _ (by simp [ha])] at hf
      have hp : p.id = pid := by simpa using List.find?_some hf
      rw [List.map_cons, if_neg (by simp [hid, hp, ha]), List.find?_cons_of_neg _ (by simp [ha])]
      exact ih hf

/-- The refund row `ProcessRefund` inserts, with its database-assigned primary
key. -/
def refundRecord (db : Db) (payment : Payment) (amount : ℚ) (now : Nat) : Payment :=
  { id := db.nextPaymentID, orderID := payment.orderID, method := payment.method,
    status := .completed, amount := -amount,
    transactionID := "REFUND-" ++ payment.transactionID, externalID := "", createdAt := now }

/-- C6.  `ProcessRefund` fails when the payment's status is not `completed`,
always fails when `amount > payment.amount` (committing nothing), and
otherwise inserts a refund row with amount `-amount`, the same method and
order reference, and transaction id `"REFUND-" ++` the original id; the
original payment's status becomes `refunded` exactly when
`amount = payment.amount` (a partial refund leaves it untouched), and the
orders table — hence every order total — is never modified. -/
theorem processRefund_spec (db : Db) (now paymentID : Nat) (amount : ℚ) (reason : String)
    (payment : Payment)
    (h : paymentGetByID db paymentID = .ok payment) :
    (payment.status ≠ .completed →
        processRefund db now paymentID amount reason =
          .error ("can only refund completed payments")) ∧
    (payment.status = .completed → payment.amount < amount →
        processRefund db now paymentID amount reason =
          .error ("refund amount cannot exceed original payment amount")) ∧
    (payment.status = .completed → amount ≤ payment.amount → amount = payment.amount →
        processRefund db now paymentID amount reason =
          .ok (paymentUpdate
                { db with
                    payments := db.payments ++ [refundRecord db payment amount now],
                    nextPaymentID := db.nextPaymentID + 1 }
                { payment with status := .refunded },
               refundRecord db payment amount now) ∧
        paymentGetByID
            (paymentUpdate
              { db with
                  payments := db.payments ++ [refundRecord db payment amount now],
                  nextPaymentID := db.nextPaymentID + 1 }
              { payment with status := .refunded })
            paymentID = .ok { payment with status := .refunded } ∧
        (paymentUpdate
            { db with
                payments := db.payments ++ [refundRecord db payment amount now],
                nextPaymentID := db.nextPaymentID + 1 }
            { payment with status := .refunded }).orders = db.orders) ∧
    (payment.status = .completed → amount ≤ payment.amount → amount ≠ payment.amount →
        processRefund db now paymentID amount reason =
          .ok ({ db with
                   payments := db.payments ++ [refundRecord db payment amount now],
                   nextPaymentID := db.nextPaymentID + 1 },
               refundRecord db payment amount now) ∧
        paymentGetByID
            { db with
                payments := db.payments ++ [refundRecord db payment amount now],
                nextPaymentID := db.nextPaymentID + 1 }
            paymentID = .ok payment ∧
        ({ db with
             payments := db.payments ++ [refundRecord db payment amount now],
             nextPaymentID := db.nextPaymentID + 1 } : Db).orders = db.orders) ∧
    ((refundRecord db payment amount now).amount = -amount ∧
     (refundRecord db payment amount now).method = payment.method ∧
     (refundRecord db payment amount now).orderID = payment.orderID ∧
     (refundRecord db payment amount now).transactionID =
       "REFUND-" ++ payment.transactionID) := by
  have hfind := (paymentGetByID_ok_iff db paymentID payment).mp h
  have hpid : payment.id = paymentID := by simpa using List.find?_some hfind
  have hfindApp :
      ((db.payments ++ [refundRecord db payment amount now]).find?
        (fun q => q.id == paymentID)) = some payment := by
    rw [List.find?_append, hfind]
    rfl
  unfold processRefund
  rw [h]
  refine ⟨?_, ?_, ?_, ?_, rfl, rfl, rfl, rfl⟩
  · intro hns
    simp [hns]
  · intro hok hlt
    simp [hok, hlt]
  · intro hok hle heq
    refine ⟨by simp [hok, not_lt.mpr hle, heq, paymentCreate, refundRecord], ?_, rfl⟩
    rw [paymentGetByID_ok_iff]
    exact find?_paymentUpdate (db.payments ++ [refundRecord db payment amount now])
      paymentID payment { payment with status := .refunded } hfindApp rfl
  · intro hok hle hne
    refine ⟨by simp [hok, not_lt.mpr hle, hne, paymentCreate, refundRecord], ?_, rfl⟩
    rw [paymentGetByID_ok_iff]
    exact hfindApp

/-- Fixture: a completed cash payment of the full order total. -/
def paymentC6 : Payment :=
  { basePayment with method := .cash, status := .completed }

/-- Fixture database for the refund witness. -/
def dbC6 : Db :=
  { menuItems := [], orders := [baseOrder], payments := [paymentC6], nextPaymentID := 2 }

/-- Witness for C6: a full refund of the concrete completed cash payment. -/
theorem processRefund_spec_witness :
    (paymentC6.status ≠ .completed →
        processRefund dbC6 9 1 110 "damaged" =
          .error ("can only refund completed payments")) ∧
    (paymentC6.status = .completed → paymentC6.amount < 110 →
        processRefund dbC6 9 1 110 "damaged" =
          .error ("refund amount cannot exceed original payment amount")) ∧
    (paymentC6.status = .completed → (110 : ℚ) ≤ paymentC6.amount → (110 : ℚ) = paymentC6.amount →
        processRefund dbC6 9 1 110 "damaged" =
          .ok (paymentUpdate
                { dbC6 with
                    payments := dbC6.payments ++ [refundRecord dbC6 paymentC6 110 9],
                    nextPaymentID := dbC6.nextPaymentID + 1 }
                { paymentC6 with status := .refunded },
               refundRecord dbC6 paymentC6 110 9) ∧
        paymentGetByID
            (paymentUpdate
              { dbC6 with
                  payments := dbC6.payments ++ [refundRecord dbC6 paymentC6 110 9],
                  nextPaymentID := dbC6.nextPaymentID + 1 }
              { paymentC6 with status := .refunded })
            1 = .ok { paymentC6 with status := .refunded } ∧
        (paymentUpdate
            { dbC6 with
                payments := dbC6.payments ++ [refundRecord dbC6 paymentC6 110 9],
                nextPaymentID := dbC6.nextPaymentID + 1 }
            { paymentC6 with status := .refunded }).orders = dbC6.orders) ∧
    (paymentC6.status = .completed → (110 : ℚ) ≤ paymentC6.amount → (110 : ℚ) ≠ paymentC6.amount →
        processRefund dbC6 9 1 110 "damaged" =
          .ok ({ dbC6 with
                  payments := dbC6.payments ++ [refundRecord dbC6 paymentC6 110 9],
                  nextPaymentID := dbC6.nextPaymentID + 1 },
               refundRecord dbC6 paymentC6 110 9) ∧
        paymentGetByID
            { dbC6 with
                payments := dbC6.payments ++ [refundRecord dbC6 paymentC6 110 9],
                nextPaymentID := dbC6.nextPaymentID + 1 }
            1 = .ok paymentC6 ∧
        ({ dbC6 with
            payments := dbC6.payments ++ [refundRecord dbC6 paymentC6 110 9],
            nextPaymentID := dbC6.nextPaymentID + 1 } : Db).orders = dbC6.orders) ∧
    ((refundRecord dbC6 paymentC6 110 9).amount = -110 ∧
     (refundRecord dbC6 paymentC6 110 9).method = paymentC6.method ∧
     (refundRecord dbC6 paymentC6 110 9).orderID = paymentC6.orderID ∧
     (refundRecord dbC6 paymentC6 110 9).transactionID =
       "REFUND-" ++ paymentC6.transactionID) :=
  processRefund_spec dbC6 9 1 110 "damaged" paymentC6 rfl

/-! ## C7: updating line items loses the VAT invariant -/

/-- Fixture menu item for the line-item update scenario. -/
def menuC7 : MenuItem :=
  { id := 1, name := "Nasi Goreng", price := 10, isAvailable := true }

/-- Fixture database: a pending order with subtotal 100, VAT 10, total 110. -/
def dbC7 : Db :=
  { menuItems := [menuC7], orders := [baseOrder], payments := [], nextPaymentID := 1 }

/-- The replacement line items: two units of item 1 (catalog price 10). -/
def itemsC7 : List OrderItem :=
  [{ orderID := 0, menuItemID := 1, quantity := 2, unitPrice := 0, totalPrice := 0,
     specialRequest := "" }]

/-- C7 failing-input evaluation.  Updating the pending order's items to two
units of the price-10 catalog item stores `TotalAmount = 20` — the raw item
sum with no VAT — while `SubtotalAmount` and `VATAmount` keep their stale
values 100 and 10, so the updated order violates both
`total = subtotal + tax` and `tax = subtotal × 0.10`, contradicting the
claimed recomputation of all three amounts. -/
theorem updateOrderItems_breaks_vat_invariant :
    (updateOrderItems dbC7 1 itemsC7).toOption.map
        (fun db' => db'.orders.map (fun o => (o.subtotalAmount, o.vatAmount, o.totalAmount))) =
      some [((100 : ℚ), (10 : ℚ), (20 : ℚ))] ∧
    ((20 : ℚ) ≠ 100 + 10) ∧ ((10 : ℚ) ≠ 20 * vatRate) := by
  refine ⟨?_, by norm_num, by norm_num [vatRate]⟩
  norm_num [updateOrderItems, orderGetByID, dbC7, baseOrder, resolveOrderItems,
    getMenuItemByID, menuC7, itemsC7, List.find?, Except.toOption]

/-! ## C8: cash-shift reconciliation -/

/-- The positive-amount loop of `ReconcileCashPayments` as a fold equals the
sum over the positive-amount rows. -/
theorem foldl_posSum (l : List Payment) (init : ℚ) :
    l.foldl (fun acc p => if 0 < p.amount then acc + p.amount else acc) init =
      init + ((l.filter (fun p => decide (0 < p.amount))).map Payment.amount).sum := by
  induction l generalizing init with
  | nil => simp
  | cons a t ih =>
    by_cases hp : 0 < a.amount
    · simp [List.foldl_cons, hp, ih, add_assoc]
    · simp [List.foldl_cons, hp, ih]

/-- Fixture: the only order belongs to user (cashier) 2, with a completed cash
payment at time 5. -/
def dbC8 : Db :=
  { menuItems := [], orders := [{ baseOrder with userID := 2 }],
    payments := [{ basePayment with method := .cash, status := .completed }],
    nextPaymentID := 2 }

/-- Counterexample to C8.  Reconciling the shift of cashier 1 over the window
`[0, 10]` computes `calculatedTotal = 110` although the only cash payment in
the window belongs to cashier 2's order — the claimed per-cashier sum is 0.
`GetCashPaymentsByPeriod` never filters on the cashier. -/
theorem reconcileCashPayments_ignores_cashier_counterexample :
    (reconcileCashPayments dbC8 1 500 0 0 10 "end of shift").2.calculatedAmount = 110 ∧
    specCashierCashSum dbC8 1 0 10 = 0 ∧
    ((110 : ℚ) ≠ 0) := by
  refine ⟨?_, ?_, by norm_num⟩
  · norm_num [reconcileCashPayments, getCashPaymentsByPeriod, dbC8, basePayment, baseOrder]
  · norm_num [specCashierCashSum, dbC8, basePayment, baseOrder, paymentBelongsToCashier,
      List.find?]

/-- C8 as amended.  `ReconcileCashPayments` computes `calculatedTotal` as the
sum of the positive-amount cash payments within `[shiftStart, shiftEnd]`
**regardless of the cashier** (the `cashierID` argument does not filter the
query and the result is identical for any two cashier ids); negative refund
rows contribute nothing; `difference = actualCashCounted - calculatedTotal`;
and the database — every payment and every order — is returned unchanged. -/
theorem reconcileCashPayments_spec (db : Db) (c1 c2 : Nat) (actual expected : ℚ)
    (s e : Nat) (notes : String) :
    (reconcileCashPayments db c1 actual expected s e notes).1 = db ∧
    (reconcileCashPayments db c1 actual expected s e notes).2.calculatedAmount =
      (((getCashPaymentsByPeriod db c1 s e).filter
          (fun p => decide (0 < p.amount))).map Payment.amount).sum ∧
    (reconcileCashPayments db c1 actual expected s e notes).2.difference =
      actual - (reconcileCashPayments db c1 actual expected s e notes).2.calculatedAmount ∧
    (reconcileCashPayments db c1 actual expected s e notes).2.calculatedAmount =
      (reconcileCashPayments db c2 actual expected s e notes).2.calculatedAmount := by
  refine ⟨rfl, ?_, rfl, rfl⟩
  show ((getCashPaymentsByPeriod db c1 s e).foldl
      (fun acc p => if 0 < p.amount then acc + p.amount else acc) 0) = _
  rw [foldl_posSum, zero_add]

/-! ## C1: order creation amounts -/

/-- A hit in the `menuItemMap` comes from the fetched row list and has the
looked-up id. -/
theorem menuItemMapFind_mem (menuItems : List MenuItem) (id : Nat) (m : MenuItem)
    (h : menuItemMapFind menuItems id = some m) : m ∈ menuItems ∧ m.id = id := by
  unfold menuItemMapFind at h
  refine ⟨List.mem_reverse.mp (List.mem_of_find?_eq_some h), ?_⟩
  simpa using List.find?_some h

/-- The item loop returns a subtotal equal to the sum of `unitPrice × quantity`
over the built line items, each of which carries the price of an available
row found in the map under its menu-item id. -/
theorem buildOrderItems_subtotal (menuItems : List MenuItem) :
    ∀ (reqs : List CreateOrderItemRequest) (items : List OrderItem) (subtotal : ℚ),
      buildOrderItems menuItems reqs = .ok (items, subtotal) →
      subtotal = (items.map (fun i => i.unitPrice * (i.quantity : ℚ))).sum ∧
      ∀ i ∈ items, ∃ m, menuItemMapFind menuItems i.menuItemID = some m ∧
        m.isAvailable = true ∧ i.unitPrice = m.price := by
  intro reqs
  induction reqs with
  | nil =>
    intro items subtotal h
    rw [buildOrderItems] at h
    obtain ⟨rfl, rfl⟩ : ([] : List OrderItem) = items ∧ (0 : ℚ) = subtotal := by
      simpa using h
    simp
  | cons head tail ih =>
    intro items subtotal h
    rw [buildOrderItems] at h
    cases hm : menuItemMapFind menuItems head.menuItemID with
    | none => rw [hm] at h; simp at h
    | some m =>
      rw [hm] at h
      dsimp only at h
      by_cases hav : m.isAvailable
      · rw [if_neg (by simp [hav])] at h
        cases hrec : buildOrderItems menuItems tail with
        | error e => rw [hrec] at h; simp at h
        | ok pr =>
          obtain ⟨items', subtotal'⟩ := pr
          rw [hrec] at h
          obtain ⟨hitems, hsub⟩ :
              ({ orderID := 0, menuItemID := head.menuItemID, quantity := head.quantity,
                 unitPrice := m.price, totalPrice := m.price * (head.quantity : ℚ),
                 specialRequest := head.specialRequest } : OrderItem) :: items' = items ∧
              m.price * (head.quantity : ℚ) + subtotal' = subtotal := by
            simpa using h
          obtain ⟨hsum', hmem'⟩ := ih items' subtotal' hrec
          subst hitems
          subst hsub
          constructor
          · simp [hsum']
          · intro i hi
            rcases List.mem_cons.mp hi with rfl | hi
            · exact ⟨m, hm, hav, rfl⟩
            · exact hmem' i hi
      · rw [if_pos (by simp [hav])] at h
        simp at h

/-- C1.  Every order returned successfully by `CreateOrder` satisfies
`subtotal = Σ (unitPrice × quantity)` over its line items,
`vat = subtotal × 0.10`, `total = subtotal + vat`, and each line item's
`unitPrice` is a copy of the price of an available catalog row with that
menu-item id at creation time; the order stores plain values, so later
catalog price changes never alter it. -/
theorem createOrder_amounts (db : Db) (now userID : Nat) (req : CreateOrderRequest)
    (order : Order) (h : createOrder db now userID req = .ok order) :
    order.subtotalAmount = (order.orderItems.map (fun i => i.unitPrice * (i.quantity : ℚ))).sum ∧
    order.vatAmount = order.subtotalAmount * vatRate ∧
    order.totalAmount = order.subtotalAmount + order.vatAmount ∧
    ∀ i ∈ order.orderItems, ∃ m ∈ db.menuItems,
      m.id = i.menuItemID ∧ m.isAvailable = true ∧ i.unitPrice = m.price := by
  unfold createOrder at h
  cases hv : validateOrderRequest now req with
  | error e => rw [hv] at h; simp at h
  | ok req' =>
    rw [hv] at h
    dsimp only at h
    split at h
    · simp at h
    · cases hb : buildOrderItems
          (getMenuItemsByIDs db.menuItems (req'.items.map (fun i => i.menuItemID)))
          req'.items with
      | error e => rw [hb] at h; simp at h
      | ok pr =>
        obtain ⟨items, subtotal⟩ := pr
        rw [hb] at h
        obtain rfl : (
            { id := 0,
              userID := userID,
              tableID := req'.tableID.getD 0,
              orderType := req'.orderType,
              status := .pending,
              subtotalAmount := subtotal,
              vatAmount := subtotal * vatRate,
              totalAmount := subtotal + subtotal * vatRate,
              customerPhone := req'.customerPhone,
              specialNotes := req'.specialNotes,
              estimatedCompletionTime := req'.estimatedCompletionTime,
              orderItems := items } : Order) = order := by simpa using h
        obtain ⟨hsum, hmem⟩ := buildOrderItems_subtotal _ req'.items items subtotal hb
        refine ⟨hsum, rfl, rfl, ?_⟩
        intro i hi
        obtain ⟨m, hfind, hav, hprice⟩ := hmem i hi
        obtain ⟨hmL, hmid⟩ := menuItemMapFind_mem _ _ _ hfind
        exact ⟨m, (List.mem_filter.mp hmL).1, hmid, hav, hprice⟩

/-- Fixture catalog for the creation witness: two available items priced 10
and 5. -/
def dbW1 : Db :=
  { menuItems := [{ id := 1, name := "A", price := 10, isAvailable := true },
                  { id := 2, name := "B", price := 5, isAvailable := true }],
    orders := [], payments := [], nextPaymentID := 1 }

/-- Fixture request: dine-in at table 1, two units of item 1 and one of
item 2. -/
def reqW1 : CreateOrderRequest :=
  { tableID := some 1, orderType := .dineIn, customerPhone := "", specialNotes := "",
    estimatedCompletionTime := none,
    items := [{ menuItemID := 1, quantity := 2, specialRequest := "" },
              { menuItemID := 2, quantity := 1, specialRequest := "" }] }

/-- The order `createOrder` produces for `reqW1`: subtotal 25, VAT 2.5,
total 27.5. -/
def orderW1 : Order :=
  { id := 0, userID := 7, tableID := 1, orderType := .dineIn, status := .pending,
    subtotalAmount := 25, vatAmount := 5 / 2, totalAmount := 55 / 2,
    customerPhone := "", specialNotes := "", estimatedCompletionTime := none,
    orderItems :=
      [{ orderID := 0, menuItemID := 1, quantity := 2, unitPrice := 10, totalPrice := 20,
         specialRequest := "" },
       { orderID := 0, menuItemID := 2, quantity := 1, unitPrice := 5, totalPrice := 5,
         specialRequest := "" }] }

/-- Witness for C1 at the concrete two-line order. -/
theorem createOrder_amounts_witness :
    orderW1.subtotalAmount =
      (orderW1.orderItems.map (fun i => i.unitPrice * (i.quantity : ℚ))).sum ∧
    orderW1.vatAmount = orderW1.subtotalAmount * vatRate ∧
    orderW1.totalAmount = orderW1.subtotalAmount + orderW1.vatAmount ∧
    ∀ i ∈ orderW1.orderItems, ∃ m ∈ dbW1.menuItems,
      m.id = i.menuItemID ∧ m.isAvailable = true ∧ i.unitPrice = m.price :=
  createOrder_amounts dbW1 0 7 reqW1 orderW1 (by
    simp [createOrder, validateOrderRequest, getMenuItemsByIDs, buildOrderItems,
      menuItemMapFind, dbW1, reqW1, orderW1, List.find?, vatRate]
    norm_num)

/-! ## C10: duplicate menu-item ids in a creation request -/

/-- A list with duplicates strictly shrinks under `dedup`. -/
theorem dedup_length_lt_of_not_nodup (l : List Nat) (h : ¬ l.Nodup) :
    l.dedup.length < l.length := by
  rcases Nat.lt_or_ge l.dedup.length l.length with h1 | h1
  · exact h1
  · exact absurd
      (List.dedup_eq_self.mp
        (l.dedup_sublist.eq_of_length (Nat.le_antisymm l.dedup_sublist.length_le h1)))
      h

/-- The batch lookup returns at most one row per distinct requested id, so a
request list with duplicate ids always gets strictly fewer rows back. -/
theorem getMenuItemsByIDs_length_lt (menuItems : List MenuItem) (ids : List Nat)
    (hnodup : (menuItems.map MenuItem.id).Nodup) (hdup : ¬ ids.Nodup) :
    (getMenuItemsByIDs menuItems ids).length < ids.length := by
  have h1 : ((getMenuItemsByIDs menuItems ids).map MenuItem.id).Nodup :=
    hnodup.sublist (List.Sublist.map MenuItem.id (List.filter_sublist _))
  have h2 : ∀ x ∈ (getMenuItemsByIDs menuItems ids).map MenuItem.id, x ∈ ids := by
    intro x hx
    obtain ⟨m, hm, rfl⟩ := List.mem_map.mp hx
    have hc := (List.mem_filter.mp hm).2
    simp only [Bool.and_eq_true] at hc
    simpa using hc.1
  calc (getMenuItemsByIDs menuItems ids).length
      = ((getMenuItemsByIDs menuItems ids).map MenuItem.id).length := by
        rw [List.length_map]
    _ = ((getMenuItemsByIDs menuItems ids).map MenuItem.id).toFinset.card :=
        (List.toFinset_card_of_nodup h1).symm
    _ ≤ ids.toFinset.card :=
        Finset.card_le_card
          (fun x hx => List.mem_toFinset.mpr (h2 x (List.mem_toFinset.mp hx)))
    _ = ids.dedup.length := List.card_toFinset ids
    _ < ids.length := dedup_length_lt_of_not_nodup ids hdup

/-- Request validation only defaults the estimated completion time; it never
changes the item list. -/
theorem validateOrderRequest_items (now : Nat) (req req' : CreateOrderRequest)
    (h : validateOrderRequest now req = .ok req') : req'.items = req.items := by
  unfold validateOrderRequest at h
  cases hot : req.orderType <;> rw [hot] at h <;> dsimp only at h
  · split at h
    · simp at h
    · rw [Except.ok.injEq] at h
      subst h
      rfl
  · split at h
    · simp at h
    · split at h <;> (rw [Except.ok.injEq] at h; subst h; rfl)

/-- C10.  A creation request that mentions the same catalog id in two or more
entries always fails with the "some menu items are not available" error (the
batch lookup returns at most one row per distinct id and drops unavailable
rows, and creation requires the row count to equal the entry count), even when
the duplicated item exists and is available.  Catalog ids are unique
(`menu_items.id` is the primary key), and the request is assumed to pass the
order-type validation that runs first. -/
theorem createOrder_duplicate_ids_fail (db : Db) (now userID : Nat)
    (req : CreateOrderRequest)
    (hnodup : (db.menuItems.map MenuItem.id).Nodup)
    (hdup : ¬ (req.items.map (fun i => i.menuItemID)).Nodup)
    (hvalid : ∃ req', validateOrderRequest now req = .ok req') :
    createOrder db now userID req = .error ("some menu items are not available") := by
  obtain ⟨req', hv⟩ := hvalid
  have hitems : req'.items = req.items := validateOrderRequest_items now req req' hv
  unfold createOrder
  rw [hv]
  dsimp only
  have hlt : (getMenuItemsByIDs db.menuItems (req'.items.map (fun i => i.menuItemID))).length <
      (req'.items.map (fun i => i.menuItemID)).length := by
    apply getMenuItemsByIDs_length_lt db.menuItems _ hnodup
    rw [hitems]
    exact hdup
  rw [if_pos]
  simp only [bne_iff_ne, ne_eq]
  intro hcontra
  rw [List.length_map] at hlt
  omega

/-- Fixture request for the duplicate-id witness: item 1 (which exists and is
available in `dbW1`) listed twice. -/
def reqW10 : CreateOrderRequest :=
  { tableID := some 1, orderType := .dineIn, customerPhone := "", specialNotes := "",
    estimatedCompletionTime := none,
    items := [{ menuItemID := 1, quantity := 1, specialRequest := "" },
              { menuItemID := 1, quantity := 1, specialRequest := "" }] }

/-- Witness for C10: the duplicate-entry request on the two-item catalog
fails with the availability error although item 1 is available. -/
theorem createOrder_duplicate_ids_fail_witness :
    (dbW1.menuItems.map MenuItem.id).Nodup ∧
    ¬ (reqW10.items.map (fun i => i.menuItemID)).Nodup ∧
    createOrder dbW1 0 7 reqW10 = .error ("some menu items are not available") :=
  ⟨by decide, by decide,
   createOrder_duplicate_ids_fail dbW1 0 7 reqW10 (by decide) (by decide) ⟨reqW10, rfl⟩⟩

end RecursiveDine
